import Mathlib

/-!
Verification of the core of `snare` (a GitHub webhooks daemon) against its
natural-language specification.  The development is a shallow embedding of
`src/main.rs`: effectful code is modelled as traces of primitive operations
(`Op`) together with a deterministic state semantics (`applyOp`), and the
program entry point `main` is modelled as a trace of startup events
(`MainEv`) over an oracle environment (`MainEnv`) recording the outcome of
each fallible system call.
-/

namespace Snare

/-- Modelled from the spec: the configuration snapshot produced by the
external configuration parser (`config.rs` is not part of the excerpted
source).  Per the spec it holds the listen address, per-repository entries
(name, secret, command) and an optional run-as user; `main.rs` itself
accesses the `user` and `listen` fields. -/
structure Config where
  listen : String
  repos : List (String × String × String)
  user : Option String
  deriving DecidableEq, Repr

/-- `syslog` priority `LOG_ERR` (from `libc`). -/
def LOG_ERR : Nat := 3

/-- `syslog` priority `LOG_CRIT` (from `libc`). -/
def LOG_CRIT : Nat := 2

/-- A log line produced by the daemon: either a line on stderr
(`eprintln!`) or a `syslog` entry with its priority. -/
inductive LogEv where
  | stderr (msg : String)
  | syslogEv (pri : Nat) (msg : String)
  deriving DecidableEq, Repr

/-- Primitive runtime operations performed by the embedded functions of
`main.rs`.  `loadFlag`/`storeFlag` are the atomic accesses to
`sighup_occurred`; `writeFd` is a non-blocking `nix::unistd::write` of one
byte whose success is recorded in `ok` (the callers discard the result);
`lockConf`/`unlockConf` bracket `self.conf.lock()`; `setConf` is the
wholesale assignment `*self.conf.lock().unwrap() = conf`; `alloc` is a heap
allocation (`CString::new`); `syslogOp` and `eprintLnOp` are the two log
sinks; `exitProc` is `process::exit`. -/
inductive Op where
  | loadFlag (value : Bool)
  | storeFlag (b : Bool)
  | writeFd (fd : Nat) (byte : Nat) (ok : Bool)
  | lockConf
  | unlockConf
  | setConf (c : Config)
  | alloc
  | syslogOp (pri : Nat) (msg : String)
  | eprintLnOp (msg : String)
  | exitProc (code : Nat)
  deriving DecidableEq, Repr

/-- The daemon state visible to the embedded operations: the fields of the
`Snare` struct that they touch (`conf`, `queue`, `sighup_occurred`), the
byte content of the event pipe, the log, and whether (and with which code)
the process has exited. -/
structure St where
  daemonised : Bool
  conf : Config
  queue : List Nat
  sighup_occurred : Bool
  pipe : List Nat
  log : List LogEv
  exited : Option Nat
  deriving DecidableEq, Repr

/-- Deterministic semantics of one primitive operation. -/
def applyOp (s : St) (op : Op) : St :=
  match op with
  | .loadFlag _ => s
  | .storeFlag b => { s with sighup_occurred := b }
  | .writeFd _ byte ok => if ok then { s with pipe := s.pipe ++ [byte] } else s
  | .lockConf => s
  | .unlockConf => s
  | .setConf c => { s with conf := c }
  | .alloc => s
  | .syslogOp pri msg => { s with log := s.log ++ [.syslogEv pri msg] }
  | .eprintLnOp msg => { s with log := s.log ++ [.stderr msg] }
  | .exitProc code => { s with exited := some code }

/-- Run a trace of operations from a state. -/
def applyTrace (s : St) (ops : List Op) : St :=
  ops.foldl applyOp s

/-- `CString::new`: fails exactly when the string contains an interior NUL
byte. -/
def cstringNew (s : String) : Option String :=
  if s.toList.contains (Char.ofNat 0) then none else some s

/-- Does the message contain a NUL byte? -/
def hasNul (s : String) : Bool :=
  s.toList.contains (Char.ofNat 0)

/-- The placeholder message used when `msg` has no `CString`
representation (built without a literal apostrophe character). -/
def placeholder : String :=
  "<can" ++ (Char.ofNat 39).toString ++ "t represent as CString>"

/-- `CString::new(msg).unwrap_or_else(|_| CString::new("<placeholder>").unwrap())`
from `Snare::error` and `fatal`. -/
def cstringOrPlaceholder (msg : String) : String :=
  match cstringNew msg with
  | some m => m
  | none => placeholder

/-- Trace of `Snare::error` (main.rs lines 88-101): when daemonised,
allocate the `"%s"` format `CString` and the message `CString` (falling
back to the placeholder) and call `syslog(LOG_ERR, ..)`; otherwise
`eprintln!` the message. -/
def errorOps (daemonised : Bool) (msg : String) : List Op :=
  if daemonised then
    [.alloc, .alloc, .syslogOp LOG_ERR (cstringOrPlaceholder msg)]
  else
    [.eprintLnOp msg]

/-- Trace of the free function `fatal` (main.rs lines 184-198): log as
`error` does but at `LOG_CRIT`, then `process::exit(1)`. -/
def fatalOps (daemonised : Bool) (msg : String) : List Op :=
  (if daemonised then
    [.alloc, .alloc, .syslogOp LOG_CRIT (cstringOrPlaceholder msg)]
  else
    [.eprintLnOp msg]) ++ [.exitProc 1]

/-- The single log event `Snare::error` appends. -/
def errorLogEv (daemonised : Bool) (msg : String) : LogEv :=
  if daemonised then .syslogEv LOG_ERR (cstringOrPlaceholder msg)
  else .stderr msg

/-- Trace of the SIGHUP handler closure registered in `main` (main.rs
lines 262-267): `sighup_occurred.store(true, Relaxed)` then a best-effort
non-blocking `write(event_write_fd, &[0])` whose result is discarded
(`.ok()`); `ok` records whether the write succeeded. -/
def sighupHandlerOps (fd : Nat) (ok : Bool) : List Op :=
  [.storeFlag true, .writeFd fd 0 ok]

/-- Trace of the SIGCHLD handler closure registered in `main` (main.rs
lines 271-275): only the best-effort non-blocking `write(event_write_fd, &[0])`. -/
def sigchldHandlerOps (fd : Nat) (ok : Bool) : List Op :=
  [.writeFd fd 0 ok]

/-- Trace of `Snare::check_for_sighup` (main.rs lines 73-81), given the
result of `Config::from_path(&self.conf_path)` as an oracle: if the flag
reads true, re-parse; on success assign the new config under the lock, on
failure log via `Snare::error`; then store false to the flag.  If the flag
reads false, nothing happens. -/
def check_for_sighupOps (parse : Except String Config) (daemonised : Bool)
    (flag : Bool) : List Op :=
  if flag then
    .loadFlag true ::
      ((match parse with
        | .ok c => [.lockConf, .setConf c, .unlockConf]
        | .error m => errorOps daemonised m)
       ++ [.storeFlag false])
  else
    [.loadFlag false]

/-- State-level effect of `Snare::check_for_sighup`. -/
def check_for_sighup (parse : Except String Config) (s : St) : St :=
  applyTrace s (check_for_sighupOps parse s.daemonised s.sighup_occurred)

/-- A user record as returned by `users::get_user_by_name`. -/
structure UserInfo where
  uid : Nat
  primaryGroupId : Nat
  homeDir : String
  deriving DecidableEq, Repr

/-- The messages of the fatal-error call sites reached from `main`
(each constructor is one `fatal`/`fatal_err` call in `main.rs`). -/
inductive FatalMsg where
  | cantFindConf
  | confParse (m : String)
  | cantSwitchGroup (u : String)
  | cantSwitchUser (u : String)
  | unknownUser (u : String)
  | userRequiredAsRoot
  | cantChdir
  | cantDaemonise
  | cantCreatePipe
  | cantInstallSighup
  | cantInstallSigchld
  | cantStartRunner
  | cantStartRuntime
  | cantBind
  deriving DecidableEq, Repr

/-- Oracle environment for `main`: the result of each fallible call, in
program order.  `pipeResult` is `pipe2(O_NONBLOCK)` (`none` = `Err`);
`userLookup` is `get_user_by_name` for the configured user;
`runnerStartOk` is `jobrunner::attend`; `runtimeOk` is `Runtime::new`;
`bindOk` is `Server::try_bind`. -/
structure MainEnv where
  argsParseOk : Bool
  helpFlag : Bool
  dFlag : Bool
  confPathArg : Option String
  defaultConfIsFile : Bool
  initialConf : Except String Config
  userLookup : Option UserInfo
  isRoot : Bool
  setgidOk : Bool
  setuidOk : Bool
  chdirOk : Bool
  daemonOk : Bool
  pipeResult : Option (Nat × Nat)
  sighupRegOk : Bool
  sigchldRegOk : Bool
  runnerStartOk : Bool
  runtimeOk : Bool
  bindOk : Bool
  deriving Repr

/-- Startup events of `main`, in program order.  `usageExit` and
`fatalExit` both terminate the process with exit code 1 (`usage` calls
`process::exit(1)`; `fatal` logs then calls `process::exit(1)`).
`pipeCreated` records the two file descriptors returned by `pipe2` and
whether `O_NONBLOCK` was requested; `sighupRegistered` and
`sigchldRegistered` record the write-end descriptor captured by the
respective handler closure; `runnerStarted` is a successful
`jobrunner::attend` (the job-runner control-loop thread is now running). -/
inductive MainEv where
  | usageExit
  | fatalExit (m : FatalMsg)
  | changedUser
  | chdirDone
  | daemonisedEv
  | openlogEv
  | pipeCreated (rfd wfd : Nat) (nonblock : Bool)
  | sighupRegistered (wfd : Nat)
  | sigchldRegistered (wfd : Nat)
  | runnerStarted
  | listenerBound
  | serveEv
  deriving DecidableEq, Repr

/-- Exit code carried by a startup event, when it terminates the process. -/
def exitCode : MainEv → Option Nat
  | .usageExit => some 1
  | .fatalExit _ => some 1
  | _ => none

/-- `change_user` (main.rs lines 144-170): if the config names a user,
look it up (unknown user is fatal) and switch group then user (each switch
can fail fatally); if no user is configured, running as root is fatal. -/
def change_user (conf : Config) (env : MainEnv) : Except FatalMsg Unit :=
  match conf.user with
  | some user =>
    match env.userLookup with
    | some _u =>
      if env.setgidOk then
        if env.setuidOk then .ok ()
        else .error (.cantSwitchUser user)
      else .error (.cantSwitchGroup user)
    | none => .error (.unknownUser user)
  | none =>
    if env.isRoot then .error .userRequiredAsRoot else .ok ()

/-- `search_snare_conf` combined with the `-c` option (main.rs lines
134-140 and 229-232): an explicit `-c` path wins, otherwise the default
path is used only if it is a file. -/
def resolveConfPath (env : MainEnv) : Option String :=
  match env.confPathArg with
  | some p => some p
  | none => if env.defaultConfIsFile then some "/etc/snare/snare.conf" else none

/-- Startup-event trace of `main` (main.rs lines 211-307) under the
oracle environment: option parsing and `-h` (usage exits), config-path
resolution, initial `Config::from_path`, `change_user`, `chdir("/")`,
optional daemonisation, `openlog`, `pipe2(O_NONBLOCK)`, registration of
the SIGHUP and SIGCHLD handlers (both capturing the pipe write end),
`jobrunner::attend`, `Runtime::new`, `Server::try_bind`, then serving.
Every failure branch ends the trace with the corresponding fatal exit. -/
def mainEvs (env : MainEnv) : List MainEv :=
  if env.argsParseOk = false then [.usageExit]
  else if env.helpFlag then [.usageExit]
  else
    match resolveConfPath env with
    | none => [.fatalExit .cantFindConf]
    | some _confPath =>
      match env.initialConf with
      | .error m => [.fatalExit (.confParse m)]
      | .ok conf =>
        match change_user conf env with
        | .error fm => [.fatalExit fm]
        | .ok _ =>
          .changedUser ::
          if env.chdirOk = false then [.fatalExit .cantChdir]
          else .chdirDone ::
            if !env.dFlag && !env.daemonOk then [.fatalExit .cantDaemonise]
            else
              ((if !env.dFlag then [.daemonisedEv] else []) ++
               .openlogEv ::
               match env.pipeResult with
               | none => [.fatalExit .cantCreatePipe]
               | some (rfd, wfd) =>
                 .pipeCreated rfd wfd true ::
                 if env.sighupRegOk = false then [.fatalExit .cantInstallSighup]
                 else .sighupRegistered wfd ::
                   if env.sigchldRegOk = false then
                     [.fatalExit .cantInstallSigchld]
                   else .sigchldRegistered wfd ::
                     if env.runnerStartOk = false then
                       [.fatalExit .cantStartRunner]
                     else .runnerStarted ::
                       if env.runtimeOk = false then
                         [.fatalExit .cantStartRuntime]
                       else
                         if env.bindOk = false then [.fatalExit .cantBind]
                         else [.listenerBound, .serveEv])

/-- The values stored to `sighup_occurred` by a trace, in order. -/
def flagStores (ops : List Op) : List Bool :=
  ops.filterMap (fun op => match op with
    | .storeFlag b => some b
    | _ => none)

/-- A sample configuration with no run-as user. -/
def confEx : Config :=
  { listen := "127.0.0.1:8080", repos := [], user := none }

/-- A second, distinct sample configuration. -/
def confEx2 : Config :=
  { listen := "0.0.0.0:9000", repos := [("r", "s", "c")], user := none }

/-- A sample daemon state with the SIGHUP flag set. -/
def stEx : St :=
  { daemonised := false, conf := confEx, queue := [], sighup_occurred := true,
    pipe := [], log := [], exited := none }

/-- A sample daemon state with the SIGHUP flag clear. -/
def stEx2 : St :=
  { daemonised := true, conf := confEx, queue := [5], sighup_occurred := false,
    pipe := [], log := [], exited := none }

/-- An environment in which every startup step succeeds except the final
`Server::try_bind`. -/
def envBindFail : MainEnv :=
  { argsParseOk := true, helpFlag := false, dFlag := true,
    confPathArg := some "/tmp/snare.conf", defaultConfIsFile := false,
    initialConf := .ok confEx, userLookup := none, isRoot := false,
    setgidOk := true, setuidOk := true, chdirOk := true, daemonOk := true,
    pipeResult := some (3, 4), sighupRegOk := true, sigchldRegOk := true,
    runnerStartOk := true, runtimeOk := true, bindOk := false }

/-- An environment in which `pipe2` fails. -/
def envPipeFail : MainEnv :=
  { envBindFail with pipeResult := none, bindOk := true }

/-- An environment in which every startup step succeeds. -/
def envOk : MainEnv :=
  { envBindFail with bindOk := true }

/-- An environment running as root with a configuration that names no
user. -/
def envRoot : MainEnv :=
  { envBindFail with isRoot := true, bindOk := true }

/-- Every error value `change_user` can return is one of its four fatal
call sites. -/
lemma change_user_error_cases (conf : Config) (env : MainEnv) (fm : FatalMsg)
    (h : change_user conf env = .error fm) :
    (∃ u, fm = .cantSwitchGroup u) ∨ (∃ u, fm = .cantSwitchUser u) ∨
    (∃ u, fm = .unknownUser u) ∨ fm = .userRequiredAsRoot := by
  unfold change_user at h
  repeat' split at h
  all_goals first
    | (injection h with h; subst h; simp)
    | (injection h)

/-- C1 (counterexample): with every startup step succeeding except the
final `Server::try_bind`, the job-runner thread has already been started
when the fatal bind error terminates the process, refuting the part of the
claim that says all startup failures occur before the control loop
starts. -/
theorem bind_failure_after_runner_started :
    MainEv.runnerStarted ∈ mainEvs envBindFail ∧
    (mainEvs envBindFail).getLast? = some (.fatalExit .cantBind) ∧
    exitCode (.fatalExit .cantBind) = some 1 := by decide

/-- C1 (amended): failure to create the wakeup pipe or to read the initial
configuration logs a fatal error, terminates the process immediately with
exit code 1, and occurs before the job runner starts; failure to bind the
listen socket also terminates fatally with exit code 1, but only after the
job-runner thread has been started (though before serving begins). -/
theorem startup_failures_fatal_amended (env : MainEnv) :
    (MainEv.fatalExit .cantCreatePipe ∈ mainEvs env →
       (mainEvs env).getLast? = some (.fatalExit .cantCreatePipe) ∧
       exitCode (.fatalExit .cantCreatePipe) = some 1 ∧
       MainEv.runnerStarted ∉ mainEvs env ∧
       MainEv.listenerBound ∉ mainEvs env ∧
       MainEv.serveEv ∉ mainEvs env) ∧
    (∀ m, MainEv.fatalExit (.confParse m) ∈ mainEvs env →
       mainEvs env = [.fatalExit (.confParse m)] ∧
       exitCode (.fatalExit (.confParse m)) = some 1 ∧
       MainEv.runnerStarted ∉ mainEvs env) ∧
    (MainEv.fatalExit .cantBind ∈ mainEvs env →
       (mainEvs env).getLast? = some (.fatalExit .cantBind) ∧
       exitCode (.fatalExit .cantBind) = some 1 ∧
       MainEv.runnerStarted ∈ mainEvs env ∧
       MainEv.serveEv ∉ mainEvs env) := by
  unfold mainEvs
  repeat' split
  all_goals
    first
    | (rename_i heq
       rcases change_user_error_cases _ _ _ heq with
         ⟨u, rfl⟩ | ⟨u, rfl⟩ | ⟨u, rfl⟩ | rfl <;> simp_all [exitCode])
    | simp_all [exitCode]

/-- C1 witness: a concrete environment whose `pipe2` fails. -/
theorem startup_failures_fatal_amended_witness :
    (mainEvs envPipeFail).getLast? = some (.fatalExit .cantCreatePipe) ∧
    MainEv.runnerStarted ∉ mainEvs envPipeFail :=
  ⟨((startup_failures_fatal_amended envPipeFail).1 (by decide)).1,
   ((startup_failures_fatal_amended envPipeFail).1 (by decide)).2.2.1⟩

/-- C9: if the loaded configuration names no user and the process runs as
root, `main` terminates fatally (exit code 1) straight after `change_user`,
before the runner or the listener start; likewise when the configured user
name does not exist on the system. -/
theorem change_user_failures_fatal (env : MainEnv) (conf : Config)
    (h1 : env.argsParseOk = true) (h2 : env.helpFlag = false)
    (h3 : (resolveConfPath env).isSome) (h4 : env.initialConf = .ok conf) :
    (conf.user = none → env.isRoot = true →
       mainEvs env = [.fatalExit .userRequiredAsRoot] ∧
       MainEv.runnerStarted ∉ mainEvs env ∧
       MainEv.listenerBound ∉ mainEvs env ∧
       exitCode (.fatalExit .userRequiredAsRoot) = some 1) ∧
    (∀ u, conf.user = some u → env.userLookup = none →
       mainEvs env = [.fatalExit (.unknownUser u)] ∧
       MainEv.runnerStarted ∉ mainEvs env ∧
       MainEv.listenerBound ∉ mainEvs env ∧
       exitCode (.fatalExit (.unknownUser u)) = some 1) := by
  obtain ⟨p, hp⟩ := Option.isSome_iff_exists.mp h3
  constructor
  · intro hu hr
    have hcu : change_user conf env = .error .userRequiredAsRoot := by
      unfold change_user
      rw [hu]
      simp [hr]
    simp [mainEvs, h1, h2, hp, h4, hcu, exitCode]
  · intro u hu hl
    have hcu : change_user conf env = .error (.unknownUser u) := by
      unfold change_user
      rw [hu, hl]
    simp [mainEvs, h1, h2, hp, h4, hcu, exitCode]

/-- C9 witness: a concrete root environment whose configuration names no
user. -/
theorem change_user_failures_fatal_witness :
    mainEvs envRoot = [.fatalExit .userRequiredAsRoot] ∧
    MainEv.runnerStarted ∉ mainEvs envRoot :=
  ⟨((change_user_failures_fatal envRoot confEx rfl rfl (by decide) rfl).1
      rfl rfl).1,
   ((change_user_failures_fatal envRoot confEx rfl rfl (by decide) rfl).1
      rfl rfl).2.1⟩

/-- C2: when the SIGHUP flag is set and the configuration re-parse fails,
`check_for_sighup` leaves the configuration snapshot unchanged, appends
exactly the one error log entry produced by `Snare::error`, and does not
terminate the process (its trace contains no `exit`). -/
theorem reload_failure_keeps_config (parse : Except String Config) (s : St)
    (msg : String) (hflag : s.sighup_occurred = true)
    (hparse : parse = .error msg) :
    (check_for_sighup parse s).conf = s.conf ∧
    (check_for_sighup parse s).exited = s.exited ∧
    (check_for_sighup parse s).log = s.log ++ [errorLogEv s.daemonised msg] ∧
    (∀ n, Op.exitProc n ∉
       check_for_sighupOps parse s.daemonised s.sighup_occurred) := by
  subst hparse
  unfold check_for_sighup check_for_sighupOps
  rw [hflag]
  cases hd : s.daemonised <;>
    simp [errorOps, errorLogEv, applyTrace, applyOp, hd]

/-- C2 witness: a concrete state with the flag set and a failing parse. -/
theorem reload_failure_keeps_config_witness :
    (check_for_sighup (Except.error "bad parse") stEx).conf = stEx.conf ∧
    (check_for_sighup (Except.error "bad parse") stEx).exited = stEx.exited :=
  ⟨(reload_failure_keeps_config (Except.error "bad parse") stEx "bad parse"
      rfl rfl).1,
   (reload_failure_keeps_config (Except.error "bad parse") stEx "bad parse"
      rfl rfl).2.1⟩

/-- C3: after `check_for_sighup` returns, the SIGHUP flag is false whatever
the parse result and the initial flag were; and when the flag was clear at
entry the whole state (configuration included) is left unchanged. -/
theorem check_for_sighup_clears_flag (parse : Except String Config) (s : St) :
    (check_for_sighup parse s).sighup_occurred = false ∧
    (s.sighup_occurred = false → check_for_sighup parse s = s) := by
  unfold check_for_sighup check_for_sighupOps
  cases hflag : s.sighup_occurred <;>
    cases parse <;>
      cases hd : s.daemonised <;>
        simp [errorOps, applyTrace, applyOp, hd, hflag]

/-- C3 witness: concrete states with the flag set and clear. -/
theorem check_for_sighup_clears_flag_witness :
    (check_for_sighup (Except.ok confEx2) stEx).sighup_occurred = false ∧
    check_for_sighup (Except.ok confEx2) stEx2 = stEx2 :=
  ⟨(check_for_sighup_clears_flag (Except.ok confEx2) stEx).1,
   (check_for_sighup_clears_flag (Except.ok confEx2) stEx2).2 rfl⟩

/-- C4: on a successful reload the shared configuration is replaced
wholesale under its lock: the resulting snapshot is exactly the newly
parsed one (independent of the previous snapshot), and the trace is a
single `setConf` bracketed by the lock acquisition and release. -/
theorem reload_success_replaces_config (parse : Except String Config) (s : St)
    (c : Config) (hflag : s.sighup_occurred = true) (hparse : parse = .ok c) :
    (check_for_sighup parse s).conf = c ∧
    check_for_sighupOps parse s.daemonised s.sighup_occurred =
      [.loadFlag true, .lockConf, .setConf c, .unlockConf,
       .storeFlag false] ∧
    (∀ s2 : St, s2.sighup_occurred = true →
       (check_for_sighup parse s2).conf = c) := by
  subst hparse
  refine ⟨?_, ?_, ?_⟩
  · unfold check_for_sighup check_for_sighupOps
    rw [hflag]
    simp [applyTrace, applyOp]
  · unfold check_for_sighupOps
    rw [hflag]
    simp
  · intro s2 hflag2
    unfold check_for_sighup check_for_sighupOps
    rw [hflag2]
    simp [applyTrace, applyOp]

/-- C4 witness: a concrete state reloaded with a distinct configuration. -/
theorem reload_success_replaces_config_witness :
    (check_for_sighup (Except.ok confEx2) stEx).conf = confEx2 :=
  (reload_success_replaces_config (Except.ok confEx2) stEx confEx2
    rfl rfl).1

/-- C5: the entire trace of the SIGHUP handler is one atomic store of true to
the flag and one best-effort non-blocking one-byte write whose error is
discarded; it takes no lock, allocates nothing, replaces no configuration,
never exits, and changes no state beyond the flag and (on a successful
write) the pipe content. -/
theorem sighup_handler_effects (s : St) (fd : Nat) (ok : Bool) :
    sighupHandlerOps fd ok = [.storeFlag true, .writeFd fd 0 ok] ∧
    (applyTrace s (sighupHandlerOps fd ok)).sighup_occurred = true ∧
    (applyTrace s (sighupHandlerOps fd ok)).conf = s.conf ∧
    (applyTrace s (sighupHandlerOps fd ok)).queue = s.queue ∧
    (applyTrace s (sighupHandlerOps fd ok)).log = s.log ∧
    (applyTrace s (sighupHandlerOps fd ok)).exited = s.exited ∧
    (applyTrace s (sighupHandlerOps fd ok)).daemonised = s.daemonised ∧
    (applyTrace s (sighupHandlerOps fd ok)).pipe =
      (if ok then s.pipe ++ [0] else s.pipe) ∧
    Op.lockConf ∉ sighupHandlerOps fd ok ∧
    Op.unlockConf ∉ sighupHandlerOps fd ok ∧
    Op.alloc ∉ sighupHandlerOps fd ok ∧
    (∀ c, Op.setConf c ∉ sighupHandlerOps fd ok) ∧
    (∀ n, Op.exitProc n ∉ sighupHandlerOps fd ok) ∧
    ((sighupHandlerOps fd ok).countP (fun op => match op with
       | .writeFd _ _ _ => true
       | _ => false) = 1) := by
  cases ok <;>
    simp [sighupHandlerOps, applyTrace, applyOp, List.countP, List.countP.go]

/-- C6: the entire trace of the SIGCHLD handler is one best-effort one-byte
write whose error is discarded; it leaves the flag, the configuration, the
queue, the log and the exit state unchanged. -/
theorem sigchld_handler_effects (s : St) (fd : Nat) (ok : Bool) :
    sigchldHandlerOps fd ok = [.writeFd fd 0 ok] ∧
    (applyTrace s (sigchldHandlerOps fd ok)).sighup_occurred =
      s.sighup_occurred ∧
    (applyTrace s (sigchldHandlerOps fd ok)).conf = s.conf ∧
    (applyTrace s (sigchldHandlerOps fd ok)).queue = s.queue ∧
    (applyTrace s (sigchldHandlerOps fd ok)).log = s.log ∧
    (applyTrace s (sigchldHandlerOps fd ok)).exited = s.exited ∧
    (applyTrace s (sigchldHandlerOps fd ok)).daemonised = s.daemonised ∧
    (applyTrace s (sigchldHandlerOps fd ok)).pipe =
      (if ok then s.pipe ++ [0] else s.pipe) ∧
    (∀ b, Op.storeFlag b ∉ sigchldHandlerOps fd ok) ∧
    (∀ c, Op.setConf c ∉ sigchldHandlerOps fd ok) ∧
    Op.lockConf ∉ sigchldHandlerOps fd ok ∧
    Op.alloc ∉ sigchldHandlerOps fd ok ∧
    (∀ n, Op.exitProc n ∉ sigchldHandlerOps fd ok) := by
  cases ok <;>
    simp [sigchldHandlerOps, applyTrace, applyOp]

/-- A pipe-creation event of `main` always records `O_NONBLOCK`. -/
lemma mainEvs_pipe_nonblock (env : MainEnv) (rfd wfd : Nat) (nb : Bool)
    (h : MainEv.pipeCreated rfd wfd nb ∈ mainEvs env) : nb = true := by
  unfold mainEvs at h
  repeat' split at h
  all_goals simp_all

/-- The trace of `main` contains at most one pipe-creation event. -/
lemma mainEvs_pipe_unique (env : MainEnv) :
    (mainEvs env).countP (fun e => match e with
      | .pipeCreated _ _ _ => true
      | _ => false) ≤ 1 := by
  unfold mainEvs
  repeat' split
  all_goals simp [List.countP_cons, List.countP_nil]

/-- The SIGHUP handler is registered on the write end of the pipe `main`
created. -/
lemma mainEvs_sighup_reg_fd (env : MainEnv) (rfd wfd : Nat) (nb : Bool)
    (f : Nat) (h1 : MainEv.pipeCreated rfd wfd nb ∈ mainEvs env)
    (h2 : MainEv.sighupRegistered f ∈ mainEvs env) : f = wfd := by
  unfold mainEvs at h1 h2
  repeat' split at h1
  all_goals simp_all

/-- The SIGCHLD handler is registered on the write end of the pipe `main`
created. -/
lemma mainEvs_sigchld_reg_fd (env : MainEnv) (rfd wfd : Nat) (nb : Bool)
    (f : Nat) (h1 : MainEv.pipeCreated rfd wfd nb ∈ mainEvs env)
    (h2 : MainEv.sigchldRegistered f ∈ mainEvs env) : f = wfd := by
  unfold mainEvs at h1 h2
  repeat' split at h1
  all_goals simp_all

/-- C7: `main` creates at most one event pipe, always with `O_NONBLOCK`,
and both the SIGHUP and the SIGCHLD handlers are registered with the write
end of that pipe; the handler writes are modelled non-blocking, and a
failed write changes nothing and is not propagated (the handler trace is
the same and contains no exit). -/
theorem single_wakeup_pipe (env : MainEnv) :
    (∀ rfd wfd nb, MainEv.pipeCreated rfd wfd nb ∈ mainEvs env →
       nb = true) ∧
    ((mainEvs env).countP (fun e => match e with
       | .pipeCreated _ _ _ => true
       | _ => false) ≤ 1) ∧
    (∀ rfd wfd nb f, MainEv.pipeCreated rfd wfd nb ∈ mainEvs env →
       MainEv.sighupRegistered f ∈ mainEvs env → f = wfd) ∧
    (∀ rfd wfd nb f, MainEv.pipeCreated rfd wfd nb ∈ mainEvs env →
       MainEv.sigchldRegistered f ∈ mainEvs env → f = wfd) ∧
    (∀ fd s, applyOp s (.writeFd fd 0 false) = s) ∧
    (∀ fd ok, sighupHandlerOps fd ok =
       [.storeFlag true, .writeFd fd 0 ok] ∧
       sigchldHandlerOps fd ok = [.writeFd fd 0 ok] ∧
       (∀ n, Op.exitProc n ∉ sighupHandlerOps fd ok) ∧
       (∀ n, Op.exitProc n ∉ sigchldHandlerOps fd ok)) := by
  refine ⟨fun rfd wfd nb h => mainEvs_pipe_nonblock env rfd wfd nb h,
    mainEvs_pipe_unique env,
    fun rfd wfd nb f h1 h2 => mainEvs_sighup_reg_fd env rfd wfd nb f h1 h2,
    fun rfd wfd nb f h1 h2 => mainEvs_sigchld_reg_fd env rfd wfd nb f h1 h2,
    ?_, ?_⟩
  · intro fd s
    simp [applyOp]
  · intro fd ok
    refine ⟨rfl, rfl, ?_, ?_⟩ <;> simp [sighupHandlerOps, sigchldHandlerOps]

/-- C7 witness: the fully successful environment creates the pipe and
registers both handlers on its write end. -/
theorem single_wakeup_pipe_witness :
    ((mainEvs envOk).countP (fun e => match e with
       | MainEv.pipeCreated _ _ _ => true
       | _ => false) ≤ 1) ∧ (4 : Nat) = 4 ∧ true = true :=
  ⟨(single_wakeup_pipe envOk).2.1,
   (single_wakeup_pipe envOk).2.2.1 3 4 true 4 (by decide) (by decide),
   (single_wakeup_pipe envOk).1 3 4 true (by decide)⟩

/-- C8: across the embedded operations, only the SIGHUP handler ever
stores true to `sighup_occurred` and only `check_for_sighup` ever stores
false; the clearing store is the last operation of `check_for_sighup`,
coming after the snapshot replacement (on success) or the error log (on
failure). -/
theorem sighup_flag_discipline :
    (∀ fd ok, flagStores (sighupHandlerOps fd ok) = [true]) ∧
    (∀ fd ok, flagStores (sigchldHandlerOps fd ok) = []) ∧
    (∀ d msg, flagStores (errorOps d msg) = []) ∧
    (∀ d msg, flagStores (fatalOps d msg) = []) ∧
    (∀ parse d, check_for_sighupOps parse d false = [.loadFlag false]) ∧
    (∀ parse d, flagStores (check_for_sighupOps parse d true) = [false]) ∧
    (∀ parse d, (check_for_sighupOps parse d true).getLast? =
       some (.storeFlag false)) ∧
    (∀ c d, check_for_sighupOps (.ok c) d true =
       [.loadFlag true, .lockConf, .setConf c, .unlockConf,
        .storeFlag false]) ∧
    (∀ m d, check_for_sighupOps (.error m) d true =
       .loadFlag true :: (errorOps d m ++ [.storeFlag false])) := by
  refine ⟨fun fd ok => by simp [flagStores, sighupHandlerOps],
    fun fd ok => by simp [flagStores, sigchldHandlerOps],
    fun d msg => by cases d <;> simp [flagStores, errorOps],
    fun d msg => by cases d <;> simp [flagStores, fatalOps],
    fun parse d => by simp [check_for_sighupOps],
    fun parse d => by
      cases parse <;> cases d <;>
        simp [flagStores, check_for_sighupOps, errorOps],
    fun parse d => by
      cases parse <;> cases d <;>
        simp [check_for_sighupOps, errorOps],
    fun c d => by simp [check_for_sighupOps],
    fun m d => by simp [check_for_sighupOps]⟩

/-- C10: `Snare::error` and `fatal` are total in the message: `error`
appends exactly one log entry and never exits, a daemonised message with
an interior NUL byte is logged as the placeholder, and `fatal` always ends
with `process::exit(1)` (it never returns). -/
theorem error_and_fatal_total (d : Bool) (msg : String) (s : St) :
    (applyTrace s (errorOps d msg)).exited = s.exited ∧
    (applyTrace s (errorOps d msg)).log = s.log ++ [errorLogEv d msg] ∧
    (cstringNew msg = none ↔ hasNul msg = true) ∧
    (hasNul msg = true → d = true →
       errorLogEv d msg = .syslogEv LOG_ERR placeholder) ∧
    (applyTrace s (fatalOps d msg)).exited = some 1 ∧
    (fatalOps d msg).getLast? = some (.exitProc 1) := by
  refine ⟨?_, ?_, ?_, ?_, ?_, ?_⟩
  · cases d <;> simp [errorOps, applyTrace, applyOp]
  · cases d <;> simp [errorOps, errorLogEv, applyTrace, applyOp]
  · simp [cstringNew, hasNul]
  · intro hnul hd
    subst hd
    simp [errorLogEv, cstringOrPlaceholder, cstringNew, hasNul] at hnul ⊢
    simp [hnul]
  · cases d <;> simp [fatalOps, applyTrace, applyOp]
  · cases d <;> simp [fatalOps]

/-- C10 witness: a concrete message with an interior NUL byte, daemonised. -/
theorem error_and_fatal_total_witness :
    errorLogEv true "a\x00b" = .syslogEv LOG_ERR placeholder ∧
    (applyTrace stEx (fatalOps true "a\x00b")).exited = some 1 :=
  ⟨(error_and_fatal_total true "a\x00b" stEx).2.2.2.1 (by decide) rfl,
   (error_and_fatal_total true "a\x00b" stEx).2.2.2.2.1⟩

end Snare
